import Mathlib

/-!
Verification of the packaging descriptor `setup.py` of the
`law-memo-pdf-to-epub` repository.

The whole repository consists of a single `setup.py` calling
`setuptools.setup` with constant keyword arguments.  We embed the
values passed to `setup`, the keyword-argument list of the call, and
the raw source lines of the file, and prove the spec claims about them.
-/

namespace SetupPy

/-- A Python value occurring as a `setup` keyword argument in this file:
every argument is either a string literal or a list of string literals. -/
inductive PyValue where
  | str : String → PyValue
  | strList : List String → PyValue
deriving DecidableEq, Repr

/-- `name = 'law-memo-pdf-to-epub'` (setup.py line 6). -/
def name : String := "law-memo-pdf-to-epub"

/-- `version = '1.0'` (setup.py line 7). -/
def version : String := "1.0"

/-- `py_modules = []` (setup.py line 8). -/
def py_modules : List String := []

/-- `scripts = ['law-memo-pdf-to-epub']` (setup.py line 9). -/
def scripts : List String := ["law-memo-pdf-to-epub"]

/-- `install_requires = ['pdfminer.six', 'ebooklib']` (setup.py line 10). -/
def install_requires : List String := ["pdfminer.six", "ebooklib"]

/-- The keyword arguments passed to `setuptools.setup`, in source order
(setup.py lines 5 to 11). -/
def setupKwargs : List (String × PyValue) :=
  [ ("name", PyValue.str name),
    ("version", PyValue.str version),
    ("py_modules", PyValue.strList py_modules),
    ("scripts", PyValue.strList scripts),
    ("install_requires", PyValue.strList install_requires) ]

/-- Look up a keyword argument of the `setup` call by keyword. -/
def lookupKwarg (k : String) : Option PyValue :=
  (setupKwargs.find? (fun p => p.1 = k)).map Prod.snd

/-- The raw lines of `setup.py`, verbatim (the file is newline-terminated;
apostrophes appear as the escape \x27). -/
def setupPyLines : List String :=
  [ "#!/usr/bin/env python3",
    "",
    "from setuptools import setup",
    "",
    "setup(",
    "    name       = \x27law-memo-pdf-to-epub\x27,",
    "    version    = \x271.0\x27,",
    "    py_modules = [],",
    "    scripts    = [\x27law-memo-pdf-to-epub\x27],",
    "    install_requires = [\x27pdfminer.six\x27, \x27ebooklib\x27]",
    ")" ]

/-- The import statement of setup.py (line 3). -/
def importLine : String := "from setuptools import setup"

/-- The lines of the `setup(...)` invocation: setup.py lines 5 to 11. -/
def setupCallLines : List String := setupPyLines.drop 4

/-- Characters that begin a PEP 440 version-specifier operator
(as in ==, >=, <=, <, >, !=, ~=). -/
def versionSpecifierChars : List Char := ['=', '<', '>', '!', '~']

/-- Whether a requirement string carries a version constraint. -/
def hasVersionSpecifier (s : String) : Bool :=
  s.data.any (fun c => c ∈ versionSpecifierChars)

/-- A line consisting only of whitespace (the blank lines of setup.py). -/
def isBlankLine (l : String) : Bool :=
  l.data.all (fun c => c = ' ' ∨ c = '\t')

/-- Whether a line starts with the given characters. -/
def startsWithChars (l : String) (p : List Char) : Bool :=
  l.data.take p.length = p

/-- Modelled from the spec: the four categories of installation metadata the
spec enumerates ("package name, version, script entry point, dependency
list"), as `setup` keywords: `name`, `version`, `scripts`,
`install_requires`. -/
def specMetadataKeywords : List String :=
  ["name", "version", "scripts", "install_requires"]

/-- Evaluating the module under an environment: the `setup` call's
arguments are literals, so the resulting keyword-argument list does not
read the environment (modelled as an association list of variables) nor
the command line. -/
def evalSetupModule (_env : List (String × String))
    (_argv : List String) : List (String × PyValue) :=
  setupKwargs

end SetupPy

open SetupPy

/-- Claim C1: the setup call declares exactly two runtime dependencies:
`install_requires` is exactly the two-element list
['pdfminer.six', 'ebooklib']. -/
theorem C1_install_requires_exact :
    lookupKwarg "install_requires" = some (PyValue.strList install_requires) ∧
    install_requires = ["pdfminer.six", "ebooklib"] ∧
    install_requires.length = 2 := by
  refine ⟨rfl, rfl, rfl⟩

/-- Claim C2: the setup call declares exactly one installable command,
named law-memo-pdf-to-epub: `scripts` is the one-element list whose sole
entry is that string. -/
theorem C2_scripts_exact :
    lookupKwarg "scripts" = some (PyValue.strList scripts) ∧
    scripts = ["law-memo-pdf-to-epub"] ∧
    scripts.length = 1 := by
  refine ⟨rfl, rfl, rfl⟩

/-- Claim C3, counterexample: the setup call passes the keyword
`py_modules`, which is outside the four categories the spec lists
(package name, version, script entry point, dependency list), so the
claim that no keyword argument outside those categories is passed is
false. -/
theorem C3_counterexample :
    ("py_modules" ∈ setupKwargs.map Prod.fst) ∧
    "py_modules" ∉ specMetadataKeywords := by
  decide

/-- Claim C3, amended: the setup call passes exactly five keyword
arguments — the four spec categories `name`, `version`, `scripts`,
`install_requires`, plus `py_modules`, whose value is the empty list. -/
theorem C3_amended_kwargs :
    setupKwargs.map Prod.fst =
      ["name", "version", "py_modules", "scripts", "install_requires"] ∧
    lookupKwarg "py_modules" = some (PyValue.strList []) ∧
    (setupKwargs.map Prod.fst).filter (fun k => k ∉ specMetadataKeywords) =
      ["py_modules"] := by
  refine ⟨rfl, rfl, by decide⟩

/-- Claim C4: the package declares no Python modules of its own:
the `py_modules` argument passed to setup is the empty list. -/
theorem C4_py_modules_empty :
    lookupKwarg "py_modules" = some (PyValue.strList py_modules) ∧
    py_modules = [] := by
  refine ⟨rfl, rfl⟩

/-- Claim C5: the setup call declares a package version identifier:
the `version` argument is the non-empty string "1.0". -/
theorem C5_version_nonempty :
    lookupKwarg "version" = some (PyValue.str version) ∧
    version = "1.0" ∧ version ≠ "" := by
  refine ⟨rfl, rfl, by decide⟩

/-- Claim C6, counterexample: the supplied source file has 11 lines,
not 12 as the claim states. -/
theorem C6_counterexample :
    setupPyLines.length = 11 ∧ setupPyLines.length ≠ 12 := by
  decide

/-- Claim C6, amended: the entire supplied source is 11 lines total and
consists entirely of packaging metadata: every line is blank, the
shebang, the setuptools import, or one of the lines of the single setup
invocation (lines 5 to 11), and exactly one line opens a `setup(` call. -/
theorem C6_amended_source_shape :
    setupPyLines.length = 11 ∧
    (setupPyLines.all (fun l =>
      isBlankLine l ∨ startsWithChars l ['#', '!'] ∨ l = importLine ∨
        l ∈ setupCallLines)) = true ∧
    setupPyLines.countP
      (fun l => startsWithChars l ['s', 'e', 't', 'u', 'p', '(']) = 1 := by
  refine ⟨rfl, by decide, by decide⟩

/-- Claim C7: every entry of `install_requires` is a bare distribution
name with no version constraint: no version-specifier operator character
occurs in either dependency string. -/
theorem C7_no_version_specifiers :
    install_requires.all (fun s => !(hasVersionSpecifier s)) = true := by
  decide

/-- Claim C8: the declared package name equals the declared command name:
the `name` argument and the sole element of `scripts` are the identical
string. -/
theorem C8_name_equals_script :
    name = "law-memo-pdf-to-epub" ∧ scripts = [name] := by
  refine ⟨rfl, rfl⟩

/-- Claim C9: evaluating the packaging descriptor is deterministic: the
keyword arguments produced by evaluating the module do not depend on the
environment or the command line, so any two evaluations yield identical
metadata. -/
theorem C9_deterministic :
    ∀ (e₁ e₂ : List (String × String)) (a₁ a₂ : List String),
      evalSetupModule e₁ a₁ = evalSetupModule e₂ a₂ := by
  intro e₁ e₂ a₁ a₂
  rfl
